import Mathlib

/-!
Verification of the acq164ioc driver core
(`acq164App/src/acq164AsynPortDriver.cpp`).

Shallow embedding conventions:
* `epicsFloat64` / `double` values are modelled as `ℚ` (exact arithmetic;
  the spec's floating-point statements are read "within tolerance").
* `int` sample codes and parameter values are modelled as `ℤ`; sizes and
  indices as `ℕ`.
* `exit(1)` / `assert(0)` are modelled as dedicated result constructors:
  `FrameResult.fault`, `ReadArrayResult.assertFailed`.
* The C++ integer division `NSPS/scan_freq` is modelled with `Int.tdiv`
  (truncation toward zero) behind an explicit zero-divisor guard
  (`FrameResult.divByZero` marks the undefined case).
* `FRAME_SAMPLES` and `NSPS` come from the repository header
  `acq164AsynPortDriver.h`, which is not among the provided sources; they
  are carried as parameters in `Config` so no value is invented.
-/

namespace Acq164

/-- `#define NUM_DIVISIONS 10` -/
def NUM_DIVISIONS : ℕ := 10

/-- `#define MIN_UPDATE_TIME 0.02` -/
def MIN_UPDATE_TIME : ℚ := 0.02

/-- asyn status results; only success/error are relevant here. -/
inductive AsynStatus
  | asynSuccess
  | asynError
deriving DecidableEq

/-- Compile-time sizes and device constants.  `maxPoints` and `nchan` are the
constructor arguments; `frameSamples` is `FRAME_SAMPLES` and `nsps` is `NSPS`,
both from the missing header. -/
structure Config where
  maxPoints : ℕ
  nchan : ℕ
  frameSamples : ℕ
  nsps : ℤ
deriving DecidableEq

/-! ## Calibration (Acq164Device::compute_cal) -/

/-- `int X1 = -(1<<23);` -/
def X1 : ℤ := -(2 ^ 23)

/-- `int X2 = 1<<23;` -/
def X2 : ℤ := 2 ^ 23

/-- `double ESLO = (Y2-Y1)/(X2-X1);` -/
def ESLO (Y1 Y2 : ℚ) : ℚ := (Y2 - Y1) / ((X2 : ℚ) - (X1 : ℚ))

/-- `double EOFF = Y1 - X1*ESLO;` -/
def EOFF (Y1 Y2 : ℚ) : ℚ := Y1 - (X1 : ℚ) * ESLO Y1 Y2

/-- `double volts = eslo[ic]*yy + eoff[ic];` (the linear map applied per sample). -/
def calibrate (eslo eoff : ℚ) (x : ℤ) : ℚ := eslo * (x : ℚ) + eoff

/-- `Acq164Device::compute_cal`: builds the per-channel `eslo`/`eoff` tables.
Channel `ii` reads the device range at `ranges[ii+1]` (one-based channels, as
in the source). -/
def compute_cal (nchan : ℕ) (ranges : List (ℚ × ℚ)) : List ℚ × List ℚ :=
  ((List.range nchan).map
      (fun ii => ESLO (ranges.getD (ii + 1) (0, 0)).1 (ranges.getD (ii + 1) (0, 0)).2),
   (List.range nchan).map
      (fun ii => EOFF (ranges.getD (ii + 1) (0, 0)).1 (ranges.getD (ii + 1) (0, 0)).2))

/-! ## Constructor pieces (acq164AsynPortDriver::acq164AsynPortDriver) -/

/-- `if (maxPoints < 1) maxPoints = 100;` -/
def constructorMaxPoints (maxPoints : ℤ) : ℕ :=
  if maxPoints < 1 then 100 else maxPoints.toNat

/-- `for (i=0; i<maxPoints; i++) pTimeBase_[i] = (double)i / (maxPoints-1) * NUM_DIVISIONS;` -/
def mkTimeBase (maxPoints : ℕ) : List ℚ :=
  (List.range maxPoints).map
    (fun i : ℕ => (i : ℚ) / ((maxPoints : ℚ) - 1) * (NUM_DIVISIONS : ℚ))

/-! ## Accumulator state

Modelled from the spec: the `Accumulator` class (`acc`) is declared in the
missing header `acq164AsynPortDriver.h`; only its interface appears in the
available source (`set`, `update_timestamp`, `get`, `clear`).  Per spec §4.2:
`set`/accumulate adds the value to the running sum and bumps the count;
`update_timestamp(period)` returns true exactly when the samples seen since
the last flush reach the period (resetting that counter); `get` yields the
mean (guarding `count == 0`); `clear` zeroes the sums and counts. -/
structure AccState where
  sums : List ℚ
  counts : List ℕ
  sinceFlush : ℕ
deriving DecidableEq

/-- Modelled from the spec: `acc.set(ic, volts)` — accumulate one sample. -/
def accSet (ic : ℕ) (v : ℚ) (a : AccState) : AccState :=
  { a with
    sums := a.sums.set ic (a.sums.getD ic 0 + v),
    counts := a.counts.set ic (a.counts.getD ic 0 + 1),
    sinceFlush := a.sinceFlush + 1 }

/-- Modelled from the spec: `acc.get(ic)` — the accumulated mean (`count == 0`
gives 0, no division by zero). -/
def accGet (ic : ℕ) (a : AccState) : ℚ :=
  if a.counts.getD ic 0 = 0 then 0 else a.sums.getD ic 0 / (a.counts.getD ic 0 : ℚ)

/-- Modelled from the spec: `acc.update_timestamp(period)` — true exactly when
the samples since the last flush reach the period. -/
def accUpdateTimestamp (period : ℤ) (a : AccState) : Bool × AccState :=
  if period ≤ (a.sinceFlush : ℤ) then (true, { a with sinceFlush := 0 }) else (false, a)

/-- Modelled from the spec: `acc.clear()`. -/
def accClear (a : AccState) : AccState :=
  { a with sums := a.sums.map (fun _ => 0), counts := a.counts.map (fun _ => 0) }

/-! ## Driver state -/

/-- The mutable driver state: the waveform buffer `pData_`, the time-base
array `pTimeBase_`, the `Acq164Device` cursor, and the parameter-library
entries the core reads or writes. -/
structure DevState where
  eslo : List ℚ
  eoff : List ℚ
  pData : List ℚ
  pTimeBase : List ℚ
  cursor : ℕ
  scanFreq : ℤ
  run : ℤ
  maxPointsParam : ℕ
  updateTime : ℚ
  noiseAmplitude : ℚ
  minValue : ℚ
  maxValue : ℚ
  meanValue : ℚ
  scalar : List ℚ
  acc : AccState
deriving DecidableEq

/-- Integer parameters touched by the embedded code. -/
inductive IntParam
  | P_Run
  | P_MaxPoints
  | P_ScanFreq
deriving DecidableEq

/-- `setIntegerParam` restricted to the parameters the core uses. -/
def setIntegerParam (p : IntParam) (v : ℤ) (s : DevState) : DevState :=
  match p with
  | IntParam.P_Run => { s with run := v }
  | IntParam.P_MaxPoints => { s with maxPointsParam := v.toNat }
  | IntParam.P_ScanFreq => { s with scanFreq := v }

/-- Float64 parameters touched by the embedded code. -/
inductive FloatParam
  | P_UpdateTime
  | P_NoiseAmplitude
  | P_Scalar
  | P_MinValue
  | P_MaxValue
  | P_MeanValue
deriving DecidableEq

/-- `setDoubleParam` restricted to the parameters the core uses
(`P_Scalar` without an address argument goes to channel 0). -/
def setDoubleParam (p : FloatParam) (v : ℚ) (s : DevState) : DevState :=
  match p with
  | FloatParam.P_UpdateTime => { s with updateTime := v }
  | FloatParam.P_NoiseAmplitude => { s with noiseAmplitude := v }
  | FloatParam.P_Scalar => { s with scalar := s.scalar.set 0 v }
  | FloatParam.P_MinValue => { s with minValue := v }
  | FloatParam.P_MaxValue => { s with maxValue := v }
  | FloatParam.P_MeanValue => { s with meanValue := v }

/-- `acq164AsynPortDriver::writeInt32`: store the value, and signal the task
event when `P_Run` is set to a non-zero value.  Result: new state, whether the
event was signalled, returned status. -/
def writeInt32 (s : DevState) (p : IntParam) (v : ℤ) : DevState × Bool × AsynStatus :=
  let s1 := setIntegerParam p v s
  (s1, (p == IntParam.P_Run) && (v != 0), AsynStatus.asynSuccess)

/-- `acq164AsynPortDriver::writeFloat64`: store the value; if the parameter is
`P_UpdateTime` and the value is below `MIN_UPDATE_TIME`, print a warning and
store the clamped floor instead.  Result: new state, whether the warning was
printed, returned status. -/
def writeFloat64 (s : DevState) (p : FloatParam) (v : ℚ) : DevState × Bool × AsynStatus :=
  let s1 := setDoubleParam p v s
  if p = FloatParam.P_UpdateTime then
    if v < MIN_UPDATE_TIME then
      (setDoubleParam FloatParam.P_UpdateTime MIN_UPDATE_TIME s1, true, AsynStatus.asynSuccess)
    else (s1, false, AsynStatus.asynSuccess)
  else (s1, false, AsynStatus.asynSuccess)

/-- Result of `acq164AsynPortDriver::readFloat64Array`.  `assertFailed` is the
unconditional `assert(0)` on the `P_Waveform` branch. -/
inductive ReadArrayResult
  | assertFailed
  | ok (out : List ℚ) (nIn : ℕ) (st : AsynStatus)
deriving DecidableEq

/-- The two float64-array parameters served by `readFloat64Array`. -/
inductive ArrayParam
  | P_Waveform
  | P_TimeBase
deriving DecidableEq

/-- `acq164AsynPortDriver::readFloat64Array`: `ncopy` is `P_MaxPoints`
clipped to `nElements`; the `P_Waveform` branch hits `assert(0)`; the
`P_TimeBase` branch memcpys `ncopy` elements and reports them in `*nIn`. -/
def readFloat64Array (s : DevState) (p : ArrayParam) (nElements : ℕ) : ReadArrayResult :=
  let ncopy := s.maxPointsParam
  let ncopy := if nElements < ncopy then nElements else ncopy
  match p with
  | ArrayParam.P_Waveform => ReadArrayResult.assertFailed
  | ArrayParam.P_TimeBase =>
      ReadArrayResult.ok (s.pTimeBase.take ncopy) ncopy AsynStatus.asynSuccess

/-! ## Frame processing (Acq164Device::onFrame) -/

/-- One incoming frame: `getChannel(ic+1)` is modelled as `raw ic` (zero-based
channels), `getStartSampleNumber()` as `startSample`. -/
structure Frame where
  raw : ℕ → List ℤ
  startSample : ℤ

/-- What the stuck-at-zero `printf` actually surfaces before `exit(1)`:
`"%s zeros detected at %lld", __FUNCTION__, cf->getStartSampleNumber()`. -/
structure FaultDiag where
  func : String
  startSample : ℤ
deriving DecidableEq

/-- Outcome of processing one frame.  `fault` is `printf` + `exit(1)` on
stuck-at-zero; `divByZero` marks the undefined `NSPS/scan_freq` with
`scan_freq == 0`; `ok s w` carries the new state and, when the waveform
buffers were published this frame, the list of channels handed to
`doCallbacksFloat64Array`. -/
inductive FrameResult
  | fault (d : FaultDiag)
  | divByZero
  | ok (s : DevState) (wfPublished : Option (List ℕ))
deriving DecidableEq

/-- The flat write index `ic*maxPoints + cursor + id` of
`pData_[ix0+cursor+id] = volts;`. -/
def writeIndex (cfg : Config) (ic cursor i : ℕ) : ℕ :=
  ic * cfg.maxPoints + cursor + i

/-- Per-sample body: compute `volts`, store it in the waveform buffer, feed
the accumulator. -/
def writeSample (cfg : Config) (ic i : ℕ) (yy : ℤ) (s : DevState) : DevState :=
  let volts := calibrate (s.eslo.getD ic 0) (s.eoff.getD ic 0) yy
  { s with
    pData := s.pData.set (writeIndex cfg ic s.cursor i) volts,
    acc := accSet ic volts s.acc }

/-- The inner sample loop of `onFrame` for one channel: `cz` is
`consecutive_zeros` (initialised to 0 per channel per frame).  A zero sample
increments it — it is never reset by a non-zero sample — and the fault fires
as soon as it exceeds 60, before the sample is stored. -/
def chanLoop (cfg : Config) (ic : ℕ) (start : ℤ) :
    List ℤ → ℕ → ℕ → DevState → Except FaultDiag DevState
  | [], _, _, s => Except.ok s
  | yy :: rest, i, cz, s =>
    if yy = 0 then
      if cz + 1 > 60 then Except.error ⟨"onFrame", start⟩
      else chanLoop cfg ic start rest (i + 1) (cz + 1) (writeSample cfg ic i yy s)
    else chanLoop cfg ic start rest (i + 1) cz (writeSample cfg ic i yy s)

/-- The outer channel loop of `onFrame` over `ic = 0, …, nchan-1`. -/
def processChannels (cfg : Config) (f : Frame) :
    List ℕ → DevState → Except FaultDiag DevState
  | [], s => Except.ok s
  | ic :: rest, s =>
    match chanLoop cfg ic f.startSample (f.raw ic) 0 0 s with
    | Except.error d => Except.error d
    | Except.ok s1 => processChannels cfg f rest s1

/-- `cursor += FRAME_SAMPLES;` -/
def afterSamples (cfg : Config) (s : DevState) : DevState :=
  { s with cursor := s.cursor + cfg.frameSamples }

/-- `NSPS/scan_freq` — C++ `int` division, truncation toward zero. -/
def flushPeriod (cfg : Config) (scan_freq : ℤ) : ℤ :=
  Int.tdiv cfg.nsps scan_freq

/-- On a flush, publish `acc.get(ic)` as the per-address `P_Scalar` value for
every channel. -/
def publishScalars (cfg : Config) (a : AccState) (sc : List ℚ) : List ℚ :=
  (List.range cfg.nchan).foldl (fun sc ic => sc.set ic (accGet ic a)) sc

/-- The accumulator-flush step of `onFrame`:
`if (acc.update_timestamp(NSPS/scan_freq)) { publish scalars; acc.clear(); }`. -/
def doFlush (cfg : Config) (s : DevState) : DevState :=
  if (accUpdateTimestamp (flushPeriod cfg s.scanFreq) s.acc).1 then
    { s with
      scalar := publishScalars cfg (accUpdateTimestamp (flushPeriod cfg s.scanFreq) s.acc).2 s.scalar,
      acc := accClear (accUpdateTimestamp (flushPeriod cfg s.scanFreq) s.acc).2 }
  else { s with acc := (accUpdateTimestamp (flushPeriod cfg s.scanFreq) s.acc).2 }

/-- The waveform-publication step of `onFrame`: when the advanced cursor
reaches `maxPoints`, publish `P_UpdateTime := startSample`, hand every
channel segment to `doCallbacksFloat64Array`, and reset the cursor. -/
def doPublish (cfg : Config) (f : Frame) (s : DevState) : FrameResult :=
  if cfg.maxPoints ≤ s.cursor then
    FrameResult.ok
      { s with updateTime := (f.startSample : ℚ), cursor := 0 }
      (some (List.range cfg.nchan))
  else FrameResult.ok s none

/-- `Acq164Device::onFrame`, assembled from the pieces above in source
order: sample loops, cursor advance, accumulator flush (undefined when the
freshly read `P_ScanFreq` is zero), waveform publication. -/
def onFrame (cfg : Config) (s : DevState) (f : Frame) : FrameResult :=
  match processChannels cfg f (List.range cfg.nchan) s with
  | Except.error d => FrameResult.fault d
  | Except.ok s1 =>
    if (afterSamples cfg s1).scanFreq = 0 then FrameResult.divByZero
    else doPublish cfg f (doFlush cfg (afterSamples cfg s1))

/-- The streaming loop restricted to the frame path: frames are handed to
`onFrame` strictly in order; the first fault (or undefined division) stops
the stream. -/
def runFrames (cfg : Config) (s : DevState) : List Frame → FrameResult
  | [] => FrameResult.ok s none
  | f :: fs =>
    match onFrame cfg s f with
    | FrameResult.ok s1 _ => runFrames cfg s1 fs
    | r => r

/-- The state carried by an `ok` result. -/
def resultState : FrameResult → Option DevState
  | FrameResult.ok s _ => some s
  | _ => none

/-- The driver state as the constructor leaves it (zeroed `calloc` buffers,
documented initial parameter values, `cursor(0)`; `eslo`/`eoff` are filled
later by `compute_cal`). -/
def initState (maxPoints : ℤ) (nchan : ℕ) : DevState :=
  let mp := constructorMaxPoints maxPoints
  { eslo := []
    eoff := []
    pData := List.replicate (mp * nchan) 0
    pTimeBase := mkTimeBase mp
    cursor := 0
    scanFreq := 0
    run := 0
    maxPointsParam := mp
    updateTime := 0.5
    noiseAmplitude := 0.1
    minValue := 0
    maxValue := 3.3
    meanValue := 0
    scalar := List.replicate nchan 0
    acc := ⟨List.replicate nchan 0, List.replicate nchan 0, 0⟩ }

/-! ## Setup and streaming task (Acq164Device::setup, Acq164Device::task) -/

/-- Device state enum from the transport library; only the `ST_STOP`
comparison matters to `setup`. -/
inductive CardState
  | ST_STOP
  | ST_ARM
  | ST_RUN
deriving DecidableEq

/-- The responses the external card gives during setup: `stateQuery = none`
models `getState` returning a non-OK status. -/
structure CardResponses where
  stateQuery : Option CardState
deriving DecidableEq

/-- Outcome of `Acq164Device::setup`: `exited` is the `exit(1)` on a failed
state query; `notIdle` is the error print plus early `return` when the card
is not in `ST_STOP` (no configure/arm commands issued); `configured` means the
four configure/arm shell commands were issued. -/
inductive SetupOutcome
  | exited
  | notIdle
  | configured
deriving DecidableEq

/-- `Acq164Device::setup`. -/
def setup (r : CardResponses) : SetupOutcome :=
  match r.stateQuery with
  | none => SetupOutcome.exited
  | some st =>
      if st = CardState.ST_STOP then SetupOutcome.configured else SetupOutcome.notIdle

/-- `Acq164Device::task` restricted to its control flow: `compute_cal` and
`setup` are called, then — whatever `setup` returned, unless it exited the
process — the frame handler is registered and `streamData()` pumps the frames
to `onFrame`.  `none` means the process exited before streaming. -/
def taskStream (cfg : Config) (r : CardResponses) (s : DevState) (fs : List Frame) :
    Option FrameResult :=
  match setup r with
  | SetupOutcome.exited => none
  | _ => some (runFrames cfg s fs)

/-! ## Concrete sample instances used by witnesses and counterexamples -/

/-- A small concrete configuration: `maxPoints = 4`, `nchan = 1`,
`FRAME_SAMPLES = 2`, `NSPS = 100`. -/
def cfgW : Config := ⟨4, 1, 2, 100⟩

/-- A concrete one-channel state with unit calibration, zeroed buffers,
`cursor = 0` and `P_ScanFreq = 5`. -/
def sW : DevState :=
  { eslo := [1]
    eoff := [0]
    pData := List.replicate 4 0
    pTimeBase := mkTimeBase 4
    cursor := 0
    scanFreq := 5
    run := 0
    maxPointsParam := 4
    updateTime := 0.5
    noiseAmplitude := 0.1
    minValue := 0
    maxValue := 3.3
    meanValue := 0
    scalar := [0]
    acc := ⟨[0], [0], 0⟩ }

/-- A concrete benign frame: both samples non-zero. -/
def fW : Frame := ⟨fun _ => [1, 1], 0⟩

/-! ## Structural lemmas about the frame path -/

/-- The cursor update performed by one `ok` frame:
`cursor += FRAME_SAMPLES; if (cursor >= maxPoints) cursor = 0;`. -/
def stepCursor (cfg : Config) (c : ℕ) : ℕ :=
  if cfg.maxPoints ≤ c + cfg.frameSamples then 0 else c + cfg.frameSamples

lemma doFlush_cursor (cfg : Config) (s : DevState) : (doFlush cfg s).cursor = s.cursor := by
  unfold doFlush; split <;> rfl

lemma doFlush_pTimeBase (cfg : Config) (s : DevState) :
    (doFlush cfg s).pTimeBase = s.pTimeBase := by
  unfold doFlush; split <;> rfl

lemma doFlush_scanFreq (cfg : Config) (s : DevState) :
    (doFlush cfg s).scanFreq = s.scanFreq := by
  unfold doFlush; split <;> rfl

lemma chanLoop_ok_fields {cfg : Config} {ic : ℕ} {start : ℤ} :
    ∀ (ys : List ℤ) (i cz : ℕ) (s s1 : DevState),
      chanLoop cfg ic start ys i cz s = Except.ok s1 →
      s1.cursor = s.cursor ∧ s1.scanFreq = s.scanFreq ∧ s1.pTimeBase = s.pTimeBase := by
  intro ys
  induction ys with
  | nil =>
    intro i cz s s1 h
    simp only [chanLoop] at h
    injection h with h1
    subst h1
    exact ⟨rfl, rfl, rfl⟩
  | cons yy rest ih =>
    intro i cz s s1 h
    simp only [chanLoop] at h
    by_cases hz : yy = 0
    · rw [if_pos hz] at h
      by_cases hcz : cz + 1 > 60
      · rw [if_pos hcz] at h
        exact Except.noConfusion h
      · rw [if_neg hcz] at h
        exact ih (i + 1) (cz + 1) (writeSample cfg ic i yy s) s1 h
    · rw [if_neg hz] at h
      exact ih (i + 1) cz (writeSample cfg ic i yy s) s1 h

lemma chanLoop_error_eq {cfg : Config} {ic : ℕ} {start : ℤ} :
    ∀ (ys : List ℤ) (i cz : ℕ) (s : DevState) (d : FaultDiag),
      chanLoop cfg ic start ys i cz s = Except.error d → d = ⟨"onFrame", start⟩ := by
  intro ys
  induction ys with
  | nil =>
    intro i cz s d h
    simp only [chanLoop] at h
    exact Except.noConfusion h
  | cons yy rest ih =>
    intro i cz s d h
    simp only [chanLoop] at h
    by_cases hz : yy = 0
    · rw [if_pos hz] at h
      by_cases hcz : cz + 1 > 60
      · rw [if_pos hcz] at h
        injection h with h1
        exact h1.symm
      · rw [if_neg hcz] at h
        exact ih (i + 1) (cz + 1) (writeSample cfg ic i yy s) d h
    · rw [if_neg hz] at h
      exact ih (i + 1) cz (writeSample cfg ic i yy s) d h

lemma processChannels_ok_fields {cfg : Config} {f : Frame} :
    ∀ (l : List ℕ) (s s1 : DevState),
      processChannels cfg f l s = Except.ok s1 →
      s1.cursor = s.cursor ∧ s1.scanFreq = s.scanFreq ∧ s1.pTimeBase = s.pTimeBase := by
  intro l
  induction l with
  | nil =>
    intro s s1 h
    simp only [processChannels] at h
    injection h with h1
    subst h1
    exact ⟨rfl, rfl, rfl⟩
  | cons ic rest ih =>
    intro s s1 h
    simp only [processChannels] at h
    cases hc : chanLoop cfg ic f.startSample (f.raw ic) 0 0 s with
    | error d =>
      rw [hc] at h
      exact Except.noConfusion h
    | ok s2 =>
      rw [hc] at h
      obtain ⟨h1, h2, h3⟩ := chanLoop_ok_fields _ _ _ _ _ hc
      obtain ⟨g1, g2, g3⟩ := ih s2 s1 h
      exact ⟨g1.trans h1, g2.trans h2, g3.trans h3⟩

lemma processChannels_error_eq {cfg : Config} {f : Frame} :
    ∀ (l : List ℕ) (s : DevState) (d : FaultDiag),
      processChannels cfg f l s = Except.error d → d = ⟨"onFrame", f.startSample⟩ := by
  intro l
  induction l with
  | nil =>
    intro s d h
    simp only [processChannels] at h
    exact Except.noConfusion h
  | cons ic rest ih =>
    intro s d h
    simp only [processChannels] at h
    cases hc : chanLoop cfg ic f.startSample (f.raw ic) 0 0 s with
    | error e =>
      rw [hc] at h
      injection h with h1
      subst h1
      exact chanLoop_error_eq _ _ _ _ _ hc
    | ok s2 =>
      rw [hc] at h
      exact ih s2 d h

lemma onFrame_ok_spec {cfg : Config} {s : DevState} {f : Frame} {s1 : DevState}
    {w : Option (List ℕ)} (h : onFrame cfg s f = FrameResult.ok s1 w) :
    s1.cursor = stepCursor cfg s.cursor
  ∧ w = (if cfg.maxPoints ≤ s.cursor + cfg.frameSamples then some (List.range cfg.nchan)
         else none)
  ∧ s1.pTimeBase = s.pTimeBase
  ∧ s1.scanFreq = s.scanFreq := by
  unfold onFrame at h
  cases hp : processChannels cfg f (List.range cfg.nchan) s with
  | error d =>
    rw [hp] at h
    exact FrameResult.noConfusion h
  | ok s2 =>
    rw [hp] at h
    have h3 : (if (afterSamples cfg s2).scanFreq = 0 then FrameResult.divByZero
               else doPublish cfg f (doFlush cfg (afterSamples cfg s2))) =
        FrameResult.ok s1 w := h
    clear h
    obtain ⟨hc, hsf, htb⟩ := processChannels_ok_fields _ _ _ hp
    by_cases hz : (afterSamples cfg s2).scanFreq = 0
    · rw [if_pos hz] at h3
      exact FrameResult.noConfusion h3
    · rw [if_neg hz] at h3
      unfold doPublish at h3
      have hcur : (doFlush cfg (afterSamples cfg s2)).cursor = s.cursor + cfg.frameSamples := by
        rw [doFlush_cursor]
        show s2.cursor + cfg.frameSamples = s.cursor + cfg.frameSamples
        rw [hc]
      have htb2 : (doFlush cfg (afterSamples cfg s2)).pTimeBase = s.pTimeBase := by
        rw [doFlush_pTimeBase]
        show s2.pTimeBase = s.pTimeBase
        exact htb
      have hsf2 : (doFlush cfg (afterSamples cfg s2)).scanFreq = s.scanFreq := by
        rw [doFlush_scanFreq]
        show s2.scanFreq = s.scanFreq
        exact hsf
      by_cases hm : cfg.maxPoints ≤ (doFlush cfg (afterSamples cfg s2)).cursor
      · rw [if_pos hm] at h3
        rw [hcur] at hm
        injection h3 with h1 h2
        subst h1
        subst h2
        refine ⟨?_, ?_, htb2, hsf2⟩
        · show (0 : ℕ) = stepCursor cfg s.cursor
          rw [stepCursor, if_pos hm]
        · rw [if_pos hm]
      · rw [if_neg hm] at h3
        rw [hcur] at hm
        injection h3 with h1 h2
        subst h1
        subst h2
        refine ⟨?_, ?_, htb2, hsf2⟩
        · rw [hcur, stepCursor, if_neg hm]
        · rw [if_neg hm]

lemma onFrame_fault_eq {cfg : Config} {s : DevState} {f : Frame} {d : FaultDiag}
    (h : onFrame cfg s f = FrameResult.fault d) :
    processChannels cfg f (List.range cfg.nchan) s = Except.error d
  ∧ d = ⟨"onFrame", f.startSample⟩ := by
  unfold onFrame at h
  cases hp : processChannels cfg f (List.range cfg.nchan) s with
  | error e =>
    rw [hp] at h
    have h3 : FrameResult.fault e = FrameResult.fault d := h
    injection h3 with h1
    subst h1
    exact ⟨rfl, processChannels_error_eq _ _ _ hp⟩
  | ok s2 =>
    rw [hp] at h
    have h3 : (if (afterSamples cfg s2).scanFreq = 0 then FrameResult.divByZero
               else doPublish cfg f (doFlush cfg (afterSamples cfg s2))) =
        FrameResult.fault d := h
    clear h
    by_cases hz : (afterSamples cfg s2).scanFreq = 0
    · rw [if_pos hz] at h3
      exact FrameResult.noConfusion h3
    · rw [if_neg hz] at h3
      unfold doPublish at h3
      split at h3 <;> exact FrameResult.noConfusion h3

lemma runFrames_ok_pTimeBase {cfg : Config} :
    ∀ (fs : List Frame) (s s1 : DevState) (w : Option (List ℕ)),
      runFrames cfg s fs = FrameResult.ok s1 w → s1.pTimeBase = s.pTimeBase := by
  intro fs
  induction fs with
  | nil =>
    intro s s1 w h
    simp only [runFrames] at h
    injection h with h1 h2
    subst h1
    rfl
  | cons f fs ih =>
    intro s s1 w h
    simp only [runFrames] at h
    cases ho : onFrame cfg s f with
    | ok s2 w2 =>
      rw [ho] at h
      exact (ih s2 s1 w h).trans (onFrame_ok_spec ho).2.2.1
    | fault d =>
      rw [ho] at h
      exact FrameResult.noConfusion h
    | divByZero =>
      rw [ho] at h
      exact FrameResult.noConfusion h

lemma runFrames_cursor_lt {cfg : Config} (hmp : 0 < cfg.maxPoints) :
    ∀ (fs : List Frame) (s : DevState), s.cursor < cfg.maxPoints →
      ∀ (s1 : DevState) (w : Option (List ℕ)),
        runFrames cfg s fs = FrameResult.ok s1 w → s1.cursor < cfg.maxPoints := by
  intro fs
  induction fs with
  | nil =>
    intro s hs s1 w h
    simp only [runFrames] at h
    injection h with h1 h2
    subst h1
    exact hs
  | cons f fs ih =>
    intro s hs s1 w h
    simp only [runFrames] at h
    cases ho : onFrame cfg s f with
    | ok s2 w2 =>
      rw [ho] at h
      apply ih s2 _ s1 w h
      rw [(onFrame_ok_spec ho).1, stepCursor]
      split
      · exact hmp
      · omega
    | fault d =>
      rw [ho] at h
      exact FrameResult.noConfusion h
    | divByZero =>
      rw [ho] at h
      exact FrameResult.noConfusion h

lemma onFrame_fault_halts {cfg : Config} {s : DevState} {f : Frame} {d : FaultDiag}
    (h : onFrame cfg s f = FrameResult.fault d) (rest : List Frame) :
    runFrames cfg s (f :: rest) = FrameResult.fault d := by
  simp only [runFrames, h]

/-- The cursor values reachable after `n` processed frames, starting from the
constructor's `cursor(0)`. -/
def cursorIter (cfg : Config) : ℕ → ℕ
  | 0 => 0
  | n + 1 => stepCursor cfg (cursorIter cfg n)

lemma cursorIter_dvd_bound {cfg : Config} (_hF : 0 < cfg.frameSamples)
    (hM : 0 < cfg.maxPoints) (hd : cfg.frameSamples ∣ cfg.maxPoints) :
    ∀ n, cfg.frameSamples ∣ cursorIter cfg n
      ∧ cursorIter cfg n + cfg.frameSamples ≤ cfg.maxPoints := by
  have hFM : cfg.frameSamples ≤ cfg.maxPoints := Nat.le_of_dvd hM hd
  intro n
  induction n with
  | zero => exact ⟨dvd_zero _, by simpa [cursorIter] using hFM⟩
  | succ n ih =>
    obtain ⟨hdc, hle⟩ := ih
    simp only [cursorIter, stepCursor]
    by_cases h : cfg.maxPoints ≤ cursorIter cfg n + cfg.frameSamples
    · rw [if_pos h]
      exact ⟨dvd_zero _, by omega⟩
    · rw [if_neg h]
      refine ⟨hdc.add dvd_rfl, ?_⟩
      have h1 : cfg.frameSamples ∣ cfg.maxPoints - (cursorIter cfg n + cfg.frameSamples) :=
        Nat.dvd_sub' hd (hdc.add dvd_rfl)
      have h2 : 0 < cfg.maxPoints - (cursorIter cfg n + cfg.frameSamples) := by omega
      have h3 := Nat.le_of_dvd h2 h1
      omega

lemma cursorIter_eq_mul {cfg : Config} (_hF : 0 < cfg.frameSamples)
    (hr : cfg.maxPoints % cfg.frameSamples ≠ 0) :
    ∀ k, k ≤ cfg.maxPoints / cfg.frameSamples →
      cursorIter cfg k = k * cfg.frameSamples := by
  intro k
  induction k with
  | zero => intro _; simp [cursorIter]
  | succ k ih =>
    intro hk
    have hck := ih (Nat.le_of_succ_le hk)
    have h1 : (k + 1) * cfg.frameSamples
        ≤ cfg.maxPoints / cfg.frameSamples * cfg.frameSamples :=
      Nat.mul_le_mul_right _ hk
    have h2 : cfg.frameSamples * (cfg.maxPoints / cfg.frameSamples)
        + cfg.maxPoints % cfg.frameSamples = cfg.maxPoints := Nat.div_add_mod _ _
    have h3 : (k + 1) * cfg.frameSamples = k * cfg.frameSamples + cfg.frameSamples :=
      Nat.succ_mul k cfg.frameSamples
    have h4 : cfg.maxPoints / cfg.frameSamples * cfg.frameSamples
        = cfg.frameSamples * (cfg.maxPoints / cfg.frameSamples) := Nat.mul_comm _ _
    have hr0 : 0 < cfg.maxPoints % cfg.frameSamples := Nat.pos_of_ne_zero hr
    have hlt : k * cfg.frameSamples + cfg.frameSamples < cfg.maxPoints := by linarith
    simp only [cursorIter, stepCursor, hck]
    rw [if_neg (Nat.not_le.mpr hlt)]
    exact h3.symm

lemma dvd_of_cursorIter_bound {cfg : Config} (hF : 0 < cfg.frameSamples)
    (hb : ∀ n, cursorIter cfg n + cfg.frameSamples ≤ cfg.maxPoints) :
    cfg.frameSamples ∣ cfg.maxPoints := by
  by_contra hnd
  have hr : cfg.maxPoints % cfg.frameSamples ≠ 0 := fun h => hnd (Nat.dvd_of_mod_eq_zero h)
  have hcq := cursorIter_eq_mul hF hr (cfg.maxPoints / cfg.frameSamples) le_rfl
  have hbq := hb (cfg.maxPoints / cfg.frameSamples)
  rw [hcq] at hbq
  have h2 : cfg.frameSamples * (cfg.maxPoints / cfg.frameSamples)
      + cfg.maxPoints % cfg.frameSamples = cfg.maxPoints := Nat.div_add_mod _ _
  have h4 : cfg.maxPoints / cfg.frameSamples * cfg.frameSamples
      = cfg.frameSamples * (cfg.maxPoints / cfg.frameSamples) := Nat.mul_comm _ _
  have hmod : cfg.maxPoints % cfg.frameSamples < cfg.frameSamples := Nat.mod_lt _ hF
  linarith

lemma setDoubleParam_pTimeBase (p : FloatParam) (v : ℚ) (s : DevState) :
    (setDoubleParam p v s).pTimeBase = s.pTimeBase := by
  cases p <;> rfl

/-! ## Claim theorems -/

/-- C5: the per-channel calibration over the raw-code domain
`X1 = -2^23, X2 = 2^23` satisfies `scale = (Ymax - Ymin)/(X2 - X1)` and
`offset = Ymin - X1*scale`, so the applied mapping sends `X1` to `Ymin` and
`X2` to `Ymax` exactly (in the rational model), and a symmetric range
`(-5, 5)` sends raw code 0 to 0 volts. -/
theorem compute_cal_linear :
    (∀ Y1 Y2 : ℚ,
        ESLO Y1 Y2 = (Y2 - Y1) / ((X2 : ℚ) - (X1 : ℚ))
      ∧ EOFF Y1 Y2 = Y1 - (X1 : ℚ) * ESLO Y1 Y2
      ∧ calibrate (ESLO Y1 Y2) (EOFF Y1 Y2) X1 = Y1
      ∧ calibrate (ESLO Y1 Y2) (EOFF Y1 Y2) X2 = Y2)
  ∧ calibrate (ESLO (-5) 5) (EOFF (-5) 5) 0 = 0 := by
  constructor
  · intro Y1 Y2
    have hx : ((X2 : ℚ) - (X1 : ℚ)) ≠ 0 := by norm_num [X1, X2]
    refine ⟨rfl, rfl, ?_, ?_⟩
    · unfold calibrate EOFF
      ring
    · unfold calibrate EOFF ESLO
      field_simp
      ring
  · norm_num [calibrate, ESLO, EOFF, X1, X2]

/-- C6: a write of `P_UpdateTime` below `MIN_UPDATE_TIME` is clamped to the
floor, produces the warning, and still returns success; a value at or above
the floor is stored unchanged without a warning. -/
theorem writeFloat64_updateTime (s : DevState) (v : ℚ) :
    (v < MIN_UPDATE_TIME →
      writeFloat64 s FloatParam.P_UpdateTime v =
        ({ s with updateTime := MIN_UPDATE_TIME }, true, AsynStatus.asynSuccess))
  ∧ (MIN_UPDATE_TIME ≤ v →
      writeFloat64 s FloatParam.P_UpdateTime v =
        ({ s with updateTime := v }, false, AsynStatus.asynSuccess)) := by
  constructor
  · intro h
    simp [writeFloat64, setDoubleParam, h]
  · intro h
    simp [writeFloat64, setDoubleParam, not_lt.mpr h]

/-- C10: a pull read of the waveform parameter always hits `assert(0)`, so it
can never succeed; the time-base parameter is served with
`min(maxPoints, nElements)` elements, that count reported in `*nIn`. -/
theorem readFloat64Array_spec (s : DevState) (n : ℕ) :
    readFloat64Array s ArrayParam.P_Waveform n = ReadArrayResult.assertFailed
  ∧ readFloat64Array s ArrayParam.P_TimeBase n =
      ReadArrayResult.ok (s.pTimeBase.take (min s.maxPointsParam n))
        (min s.maxPointsParam n) AsynStatus.asynSuccess := by
  refine ⟨rfl, ?_⟩
  show ReadArrayResult.ok
      (s.pTimeBase.take (if n < s.maxPointsParam then n else s.maxPointsParam))
      (if n < s.maxPointsParam then n else s.maxPointsParam) AsynStatus.asynSuccess
    = ReadArrayResult.ok (s.pTimeBase.take (min s.maxPointsParam n))
        (min s.maxPointsParam n) AsynStatus.asynSuccess
  have hmin : (if n < s.maxPointsParam then n else s.maxPointsParam)
      = min s.maxPointsParam n := by
    rcases Nat.lt_or_ge n s.maxPointsParam with h | h
    · rw [if_pos h, Nat.min_eq_right (Nat.le_of_lt h)]
    · rw [if_neg (Nat.not_lt.mpr h), Nat.min_eq_left h]
  rw [hmin]

/-- C7: the time-base array is computed once by the constructor as
`i / (maxPoints - 1) * NUM_DIVISIONS` for `i < maxPoints`, and nothing on the
frame path or the parameter-write path ever modifies it afterwards. -/
theorem timeBase_static :
    (∀ (maxPoints i : ℕ),
        (mkTimeBase maxPoints)[i]? =
          if i < maxPoints then
            some ((i : ℚ) / ((maxPoints : ℚ) - 1) * (NUM_DIVISIONS : ℚ))
          else none)
  ∧ (∀ (maxPoints : ℤ) (nchan : ℕ),
        (initState maxPoints nchan).pTimeBase = mkTimeBase (constructorMaxPoints maxPoints))
  ∧ (∀ (cfg : Config) (s : DevState) (fs : List Frame),
        (Option.map DevState.pTimeBase (resultState (runFrames cfg s fs))).getD s.pTimeBase
          = s.pTimeBase)
  ∧ (∀ (s : DevState) (p : FloatParam) (v : ℚ),
        ((writeFloat64 s p v).1).pTimeBase = s.pTimeBase)
  ∧ (∀ (s : DevState) (p : IntParam) (v : ℤ),
        ((writeInt32 s p v).1).pTimeBase = s.pTimeBase) := by
  refine ⟨?_, ?_, ?_, ?_, ?_⟩
  · intro mp i
    by_cases h : i < mp
    · rw [if_pos h]
      unfold mkTimeBase
      rw [List.getElem?_map, List.getElem?_range h]
      rfl
    · rw [if_neg h]
      unfold mkTimeBase
      rw [List.getElem?_eq_none]
      simp only [List.length_map, List.length_range]
      omega
  · intro mp nchan
    rfl
  · intro cfg s fs
    cases h : runFrames cfg s fs with
    | ok s1 w => simp [resultState, runFrames_ok_pTimeBase _ _ _ _ h]
    | fault d => simp [resultState]
    | divByZero => simp [resultState]
  · intro s p v
    unfold writeFloat64
    split
    · split
      · simp [setDoubleParam_pTimeBase]
      · simp [setDoubleParam_pTimeBase]
    · simp [setDoubleParam_pTimeBase]
  · intro s p v
    cases p <;> rfl

/-- C6 witness: the concrete value 0.01 is clamped with a warning; the
concrete value 1 is stored unchanged. -/
theorem writeFloat64_updateTime_witness :
    ((0.01 : ℚ) < MIN_UPDATE_TIME
      ∧ writeFloat64 sW FloatParam.P_UpdateTime 0.01 =
          ({ sW with updateTime := MIN_UPDATE_TIME }, true, AsynStatus.asynSuccess))
  ∧ (MIN_UPDATE_TIME ≤ (1 : ℚ)
      ∧ writeFloat64 sW FloatParam.P_UpdateTime 1 =
          ({ sW with updateTime := 1 }, false, AsynStatus.asynSuccess)) :=
  ⟨⟨by norm_num [MIN_UPDATE_TIME],
    (writeFloat64_updateTime sW 0.01).1 (by norm_num [MIN_UPDATE_TIME])⟩,
   ⟨by norm_num [MIN_UPDATE_TIME],
    (writeFloat64_updateTime sW 1).2 (by norm_num [MIN_UPDATE_TIME])⟩⟩

/-- The C4 property: after any frame sequence from the given start state the
cursor stays below `maxPoints`, and a single processed frame publishes the
waveforms (one callback per channel) exactly when the advanced cursor reaches
`maxPoints`, in which case the cursor is reset to 0. -/
def CursorInvariantConcl (cfg : Config) (s0 : DevState) : Prop :=
  (∀ fs : List Frame,
      (Option.map DevState.cursor (resultState (runFrames cfg s0 fs))).getD 0 < cfg.maxPoints)
  ∧ ∀ (s : DevState) (f : Frame) (s1 : DevState) (w : Option (List ℕ)),
      onFrame cfg s f = FrameResult.ok s1 w →
        (w = some (List.range cfg.nchan) ↔ cfg.maxPoints ≤ s.cursor + cfg.frameSamples)
      ∧ (cfg.maxPoints ≤ s.cursor + cfg.frameSamples → s1.cursor = 0)
      ∧ (¬ cfg.maxPoints ≤ s.cursor + cfg.frameSamples →
            w = none ∧ s1.cursor = s.cursor + cfg.frameSamples)

/-- C4: starting from `cursor = 0`, the invariant `0 ≤ cursor < maxPoints`
(the lower bound is intrinsic to `ℕ`) holds after every fully processed
frame, and the waveform-publish event — one callback per channel followed by
`cursor = 0` — happens if and only if the cursor advanced by `FRAME_SAMPLES`
reaches or exceeds `maxPoints`. -/
theorem cursor_invariant (cfg : Config) (s0 : DevState)
    (hmp : 0 < cfg.maxPoints) (h0 : s0.cursor = 0) :
    CursorInvariantConcl cfg s0 := by
  constructor
  · intro fs
    cases h : runFrames cfg s0 fs with
    | ok s1 w =>
      have := runFrames_cursor_lt hmp fs s0 (by rw [h0]; exact hmp) s1 w h
      simpa [resultState] using this
    | fault d => simpa [resultState] using hmp
    | divByZero => simpa [resultState] using hmp
  · intro s f s1 w h
    obtain ⟨hc, hw, -, -⟩ := onFrame_ok_spec h
    by_cases hm : cfg.maxPoints ≤ s.cursor + cfg.frameSamples
    · rw [if_pos hm] at hw
      refine ⟨by simp [hw, hm], fun _ => ?_, fun hcon => absurd hm hcon⟩
      rw [hc, stepCursor, if_pos hm]
    · rw [if_neg hm] at hw
      refine ⟨?_, fun hcon => absurd hcon hm, fun _ => ⟨hw, ?_⟩⟩
      · constructor
        · intro hcon
          rw [hw] at hcon
          exact Option.noConfusion hcon
        · intro hcon
          exact absurd hcon hm
      · rw [hc, stepCursor, if_neg hm]

/-- C4 witness: hypotheses discharged at the concrete `cfgW`, `sW`. -/
theorem cursor_invariant_witness :
    0 < cfgW.maxPoints ∧ sW.cursor = 0 ∧ CursorInvariantConcl cfgW sW :=
  ⟨by decide, rfl, cursor_invariant cfgW sW (by decide) rfl⟩

/-- The C8 property: the cursor evolves by `stepCursor`; a frame starting at
a cursor with `cursor + FRAME_SAMPLES > maxPoints` writes at or beyond the
channel segment end (and past the whole `nchan*maxPoints` buffer for the last
channel); and every reachable write stays inside its channel segment for all
frame sequences exactly when `FRAME_SAMPLES` divides `maxPoints`. -/
def SegmentSafetyConcl (cfg : Config) : Prop :=
  (∀ (s : DevState) (f : Frame) (s1 : DevState) (w : Option (List ℕ)),
      onFrame cfg s f = FrameResult.ok s1 w → s1.cursor = stepCursor cfg s.cursor)
  ∧ (∀ cur ic : ℕ, ic < cfg.nchan → cfg.maxPoints < cur + cfg.frameSamples →
      ∃ i : ℕ, i < cfg.frameSamples
        ∧ (ic + 1) * cfg.maxPoints ≤ writeIndex cfg ic cur i
        ∧ (ic = cfg.nchan - 1 → cfg.nchan * cfg.maxPoints ≤ writeIndex cfg ic cur i))
  ∧ ((∀ n ic i : ℕ, ic < cfg.nchan → i < cfg.frameSamples →
        writeIndex cfg ic (cursorIter cfg n) i < (ic + 1) * cfg.maxPoints)
      ↔ cfg.frameSamples ∣ cfg.maxPoints)

/-- C8: out-of-segment writes happen exactly on cursor overshoot, and
segment safety over all frame sequences is equivalent to
`FRAME_SAMPLES ∣ maxPoints`. -/
theorem frame_segment_overflow (cfg : Config) (hF : 0 < cfg.frameSamples)
    (hM : 0 < cfg.maxPoints) (hC : 0 < cfg.nchan) : SegmentSafetyConcl cfg := by
  refine ⟨?_, ?_, ?_⟩
  · intro s f s1 w h
    exact (onFrame_ok_spec h).1
  · intro cur ic hic hover
    have hw : writeIndex cfg ic cur (cfg.frameSamples - 1)
        = ic * cfg.maxPoints + cur + (cfg.frameSamples - 1) := rfl
    have hsucc : (ic + 1) * cfg.maxPoints = ic * cfg.maxPoints + cfg.maxPoints :=
      Nat.succ_mul _ _
    have hmain : (ic + 1) * cfg.maxPoints ≤ writeIndex cfg ic cur (cfg.frameSamples - 1) := by
      rw [hw, hsucc]
      obtain ⟨A, hA⟩ : ∃ A, ic * cfg.maxPoints = A := ⟨_, rfl⟩
      rw [hA]
      omega
    refine ⟨cfg.frameSamples - 1, by omega, hmain, fun hlast => ?_⟩
    have hn : cfg.nchan = ic + 1 := by omega
    rw [hn]
    exact hmain
  · constructor
    · intro hall
      apply dvd_of_cursorIter_bound hF
      intro n
      have h1 := hall n 0 (cfg.frameSamples - 1) hC (by omega)
      have hw : writeIndex cfg 0 (cursorIter cfg n) (cfg.frameSamples - 1)
          = cursorIter cfg n + (cfg.frameSamples - 1) := by
        unfold writeIndex
        rw [Nat.zero_mul, Nat.zero_add]
      rw [hw] at h1
      simp only [Nat.zero_add, Nat.one_mul] at h1
      omega
    · intro hd n ic i hic hi
      have hb := (cursorIter_dvd_bound hF hM hd n).2
      have hsucc : (ic + 1) * cfg.maxPoints = ic * cfg.maxPoints + cfg.maxPoints :=
        Nat.succ_mul _ _
      have hw : writeIndex cfg ic (cursorIter cfg n) i
          = ic * cfg.maxPoints + cursorIter cfg n + i := rfl
      rw [hw, hsucc]
      obtain ⟨A, hA⟩ : ∃ A, ic * cfg.maxPoints = A := ⟨_, rfl⟩
      rw [hA]
      omega

/-- C8 witness: hypotheses discharged at the concrete `cfgW`. -/
theorem frame_segment_overflow_witness :
    0 < cfgW.frameSamples ∧ 0 < cfgW.maxPoints ∧ 0 < cfgW.nchan ∧ SegmentSafetyConcl cfgW :=
  ⟨by decide, by decide, by decide,
   frame_segment_overflow cfgW (by decide) (by decide) (by decide)⟩

/-- C9: on a fault-free frame, the flush period handed to the accumulator is
the unguarded integer division `NSPS / scan_freq` of the freshly registered
`P_ScanFreq` value, and the computation is undefined exactly when that value
is zero. -/
theorem flushPeriod_unguarded (cfg : Config) (s : DevState) (f : Frame) (v : ℤ)
    (hok : (processChannels cfg f (List.range cfg.nchan)
        (setIntegerParam IntParam.P_ScanFreq v s)).toOption.isSome = true) :
    (onFrame cfg (setIntegerParam IntParam.P_ScanFreq v s) f = FrameResult.divByZero ↔ v = 0)
  ∧ flushPeriod cfg v = Int.tdiv cfg.nsps v := by
  refine ⟨?_, rfl⟩
  cases hp : processChannels cfg f (List.range cfg.nchan)
      (setIntegerParam IntParam.P_ScanFreq v s) with
  | error d =>
    rw [hp] at hok
    simp [Except.toOption] at hok
  | ok s1 =>
    have hsf : s1.scanFreq = v := by
      have h := (processChannels_ok_fields _ _ _ hp).2.1
      rw [h]
      rfl
    have hzs : (afterSamples cfg s1).scanFreq = v := hsf
    have key : onFrame cfg (setIntegerParam IntParam.P_ScanFreq v s) f
        = (if (afterSamples cfg s1).scanFreq = 0 then FrameResult.divByZero
           else doPublish cfg f (doFlush cfg (afterSamples cfg s1))) := by
      unfold onFrame
      rw [hp]
    rw [key]
    by_cases hv : v = 0
    · rw [if_pos (by rw [hzs]; exact hv)]
      simp [hv]
    · rw [if_neg (by rw [hzs]; exact hv)]
      constructor
      · intro hcon
        unfold doPublish at hcon
        split at hcon <;> exact FrameResult.noConfusion hcon
      · intro h0
        exact absurd h0 hv

/-- C9 witness: with `P_ScanFreq` freshly set to 0 on a fault-free frame, the
division is the undefined case. -/
theorem flushPeriod_unguarded_witness :
    (processChannels cfgW fW (List.range cfgW.nchan)
        (setIntegerParam IntParam.P_ScanFreq 0 sW)).toOption.isSome = true
  ∧ ((onFrame cfgW (setIntegerParam IntParam.P_ScanFreq 0 sW) fW = FrameResult.divByZero
        ↔ (0 : ℤ) = 0)
      ∧ flushPeriod cfgW 0 = Int.tdiv cfgW.nsps 0) := by
  have h : (processChannels cfgW fW (List.range cfgW.nchan)
      (setIntegerParam IntParam.P_ScanFreq 0 sW)).toOption.isSome = true := by decide
  exact ⟨h, flushPeriod_unguarded cfgW sW fW 0 h⟩

/-! ## C1: the consecutive-zero counter is never reset (code bug) -/

/-- Modelled from the spec (§4.3 step 2): the intended per-channel
consecutive-zero counter — incremented when the raw sample is 0, reset to 0
when it is non-zero, fault once it exceeds the threshold 60.  The source
(`onFrame`, `chanLoop` above) increments the counter but has no reset branch,
despite naming the variable `consecutive_zeros`. -/
def specConsecutiveZeroFault : List ℤ → ℕ → Bool
  | [], _ => false
  | yy :: rest, cz =>
    if yy = 0 then
      if cz + 1 > 60 then true else specConsecutiveZeroFault rest (cz + 1)
    else specConsecutiveZeroFault rest 0

/-- Config for the C1 failing input: one channel, `FRAME_SAMPLES = 62`. -/
def cfgBug : Config := ⟨100, 1, 62, 100⟩

/-- State for the C1 failing input. -/
def sBug : DevState :=
  { eslo := [1]
    eoff := [0]
    pData := []
    pTimeBase := []
    cursor := 0
    scanFreq := 5
    run := 0
    maxPointsParam := 100
    updateTime := 0.5
    noiseAmplitude := 0.1
    minValue := 0
    maxValue := 3.3
    meanValue := 0
    scalar := [0]
    acc := ⟨[0], [0], 0⟩ }

/-- The C1 failing frame: 60 zeros, one non-zero sample, one further zero. -/
def fBug : Frame := ⟨fun _ => List.replicate 60 0 ++ [1, 0], 0⟩

/-- C1 (code bug): on 60 zeros followed by a non-zero sample and one further
zero, the code raises the stuck-at-zero fault — the non-zero sample did not
reset the counter — while the spec's consecutive-zero counter (reset on
non-zero) reports no fault on the same samples. -/
theorem consecutive_zeros_not_reset :
    onFrame cfgBug sBug fBug = FrameResult.fault ⟨"onFrame", 0⟩
  ∧ specConsecutiveZeroFault (List.replicate 60 0 ++ [1, 0]) 0 = false := by
  constructor
  · decide
  · decide

/-! ## C2: a non-idle device does not stop streaming -/

/-- The card answers the state query with `ST_RUN` (already running). -/
def r2 : CardResponses := ⟨some CardState.ST_RUN⟩

/-- C2 counterexample: with the device reporting `ST_RUN`, `setup` reports
the error and skips the configure/arm commands, but `task` still enters the
streaming loop and a frame is handed to the frame processor and fully
processed (the cursor advances to 2). -/
theorem setup_not_idle_still_streams :
    setup r2 = SetupOutcome.notIdle
  ∧ taskStream cfgW r2 sW [fW] = some (runFrames cfgW sW [fW])
  ∧ Option.map DevState.cursor (resultState (runFrames cfgW sW [fW])) = some 2 := by
  refine ⟨rfl, rfl, ?_⟩
  decide

/-- C2 (amended): when the device reports a non-idle state, `setup` reports
an error and issues no configure/arm commands, but the run is not abandoned:
the streaming loop is entered and the frames are pumped to the frame
processor exactly as in the idle case. -/
theorem setup_not_idle_amended (r : CardResponses) (st : CardState)
    (hq : r.stateQuery = some st) (hns : st ≠ CardState.ST_STOP) :
    setup r = SetupOutcome.notIdle
  ∧ ∀ (cfg : Config) (s : DevState) (fs : List Frame),
      taskStream cfg r s fs = some (runFrames cfg s fs) := by
  have hs : setup r = SetupOutcome.notIdle := by
    unfold setup
    rw [hq]
    simp [hns]
  refine ⟨hs, fun cfg s fs => ?_⟩
  unfold taskStream
  rw [hs]

/-- C2 witness: hypotheses discharged at the concrete response `r2`. -/
theorem setup_not_idle_amended_witness :
    r2.stateQuery = some CardState.ST_RUN
  ∧ CardState.ST_RUN ≠ CardState.ST_STOP
  ∧ (setup r2 = SetupOutcome.notIdle
      ∧ ∀ (cfg : Config) (s : DevState) (fs : List Frame),
          taskStream cfg r2 s fs = some (runFrames cfg s fs)) :=
  ⟨rfl, by decide, setup_not_idle_amended r2 CardState.ST_RUN rfl (by decide)⟩

/-! ## C3: the fault diagnostic has no channel index -/

/-- Config for the C3 counterexample: two channels, `FRAME_SAMPLES = 61`. -/
def cfg3 : Config := ⟨100, 2, 61, 100⟩

/-- State for the C3 counterexample. -/
def s3 : DevState :=
  { eslo := [1, 1]
    eoff := [0, 0]
    pData := []
    pTimeBase := []
    cursor := 0
    scanFreq := 5
    run := 0
    maxPointsParam := 100
    updateTime := 0.5
    noiseAmplitude := 0.1
    minValue := 0
    maxValue := 3.3
    meanValue := 0
    scalar := [0, 0]
    acc := ⟨[0, 0], [0, 0], 0⟩ }

/-- Frame whose channel 0 is stuck at zero (channel 1 healthy). -/
def fA : Frame :=
  ⟨fun ic => if ic = 0 then List.replicate 61 0 else List.replicate 61 1, 7⟩

/-- Frame whose channel 1 is stuck at zero (channel 0 healthy). -/
def fB : Frame :=
  ⟨fun ic => if ic = 0 then List.replicate 61 1 else List.replicate 61 0, 7⟩

/-- C3 counterexample: a fault on channel 0 and a fault on channel 1 surface
literally identical diagnostics (function name and start-sample number only),
so the surfaced diagnostic does not include the faulting channel index. -/
theorem fault_diag_lacks_channel :
    onFrame cfg3 s3 fA = FrameResult.fault ⟨"onFrame", 7⟩
  ∧ onFrame cfg3 s3 fB = FrameResult.fault ⟨"onFrame", 7⟩ := by
  constructor
  · decide
  · decide

/-- C3 (amended): whenever the stuck-at-zero fault is raised, the diagnostic
carries the function name and the frame's start-sample sequence number — but
no channel index — and streaming halts: the remaining frames are never
processed. -/
theorem fault_halts_with_startSample (cfg : Config) (s : DevState) (f : Frame)
    (d : FaultDiag) (h : onFrame cfg s f = FrameResult.fault d) :
    d.func = "onFrame" ∧ d.startSample = f.startSample
  ∧ ∀ rest : List Frame, runFrames cfg s (f :: rest) = FrameResult.fault d := by
  obtain ⟨-, hd⟩ := onFrame_fault_eq h
  subst hd
  exact ⟨rfl, rfl, fun rest => onFrame_fault_halts h rest⟩

/-- C3 witness: the hypothesis discharged at the concrete faulting frame. -/
theorem fault_halts_with_startSample_witness :
    onFrame cfg3 s3 fA = FrameResult.fault ⟨"onFrame", 7⟩
  ∧ ((⟨"onFrame", 7⟩ : FaultDiag).func = "onFrame"
      ∧ (⟨"onFrame", 7⟩ : FaultDiag).startSample = fA.startSample
      ∧ ∀ rest : List Frame,
          runFrames cfg3 s3 (fA :: rest) = FrameResult.fault ⟨"onFrame", 7⟩) := by
  have h : onFrame cfg3 s3 fA = FrameResult.fault ⟨"onFrame", 7⟩ := by decide
  exact ⟨h, fault_halts_with_startSample cfg3 s3 fA _ h⟩

end Acq164
